import Mathlib

/-!
Verification of the LINE-bot webhook Lambda (repository line-bot-lambda-oneclick).

Shallow embedding of `src/lambda/app.py` (webhook handler) and
`src/lambda/authorizer/authorizer.py` (API-gateway request authorizer).

External collaborators (Secrets Manager, the LINE SDK's `WebhookParser.parse`,
`requests.get`, S3 `put_object`, `reply_message`, `uuid4`) are modelled as an
explicit environment of oracles; the handler's own control flow is translated
line by line.  Observable side effects (parser invocation, replies, HTTP
downloads, S3 puts) are recorded in a trace of `Act`ions.
-/

/-- Character-wise lowercasing, modelling Python's `str.lower()` (the header
keys involved are ASCII). -/
def strLower (s : String) : String :=
  String.mk (s.data.map Char.toLower)

/-- Substring containment, modelling Python's `pat in s`. -/
def strContains (s pat : String) : Bool :=
  (List.range (s.data.length + 1)).any (fun i => pat.data.isPrefixOf (s.data.drop i))

/-- Models the header scan of app.py lines 113-118 and authorizer.py lines 61-66:
`for key, value in headers.items(): if key and key.lower() == 'x-line-signature'`.
Returns the value of the first header whose nonempty key lowercases to
`x-line-signature`. -/
def findSignature (hs : List (String × String)) : Option String :=
  (hs.find? (fun kv => !(kv.1 == "") && (strLower kv.1 == "x-line-signature"))).map (fun kv => kv.2)

/-- Models Python `json.dumps({'message': m})`. -/
def jsonMessage (m : String) : String :=
  "\x7b\"message\": \"" ++ m ++ "\"\x7d"

/-- Outcome of fetching the credential secret (models Secrets Manager plus
`json.loads`): the store may be unreachable or the id absent (`unavailable`),
the payload may fail to decode as JSON (`notJson`), or it yields a JSON object
modelled as an association list. -/
inductive SecretFetch where
  | unavailable
  | notJson
  | ok (fields : List (String × String))
deriving DecidableEq

/-- Models `get_secret` (app.py lines 23-31): on either failure the exception is
logged and re-raised; on success the decoded JSON object is returned. -/
def get_secret (s : SecretFetch) : Except String (List (String × String)) :=
  match s with
  | SecretFetch.unavailable => Except.error "Error retrieving secret"
  | SecretFetch.notJson => Except.error "Expecting value"
  | SecretFetch.ok fields => Except.ok fields

/-- Models `get_line_bot_api` (app.py lines 34-40): reads
`CHANNEL_ACCESS_TOKEN` and `CHANNEL_SECRET` from the secret with `.get(key, '')`
defaulting each missing field to the empty string. Returns
(channel access token, channel secret). -/
def get_line_bot_api (s : SecretFetch) : Except String (String × String) :=
  (get_secret s).map (fun secret =>
    ((secret.lookup "CHANNEL_ACCESS_TOKEN").getD "", (secret.lookup "CHANNEL_SECRET").getD ""))

/-- A parsed LINE message payload: text, file (id, declared file name, declared
size), or any other message kind. -/
inductive Message where
  | text (t : String)
  | file (id : String) (fileName : Option String) (fileSize : Nat)
  | otherMsg
deriving DecidableEq

/-- A parsed LINE webhook event: a `MessageEvent` carrying a reply token and a
message, or any other event kind (which the handler ignores). -/
inductive Event where
  | message (replyToken : String) (m : Message)
  | nonMessage (replyToken : String)
deriving DecidableEq

/-- Result of the SDK's `WebhookParser.parse(body, signature)`: the parsed
event list on success, `InvalidSignatureError` when the signature does not
match `HMAC(channelSecret, body)`, or any other exception. -/
inductive ParseResult where
  | ok (events : List Event)
  | invalidSignature
  | otherError (msg : String)
deriving DecidableEq

/-- Result of `requests.get` on the LINE content endpoint: HTTP status,
`Content-Type` header (with `.get('Content-Type', '')` semantics), and body
bytes (opaque). -/
structure DownloadResp where
  status : Nat
  contentType : String
  content : String
deriving DecidableEq

/-- The environment of external collaborators, fixed for one invocation:
the secret-store outcome, the SDK parser (channel secret, body, signature),
whether `reply_message(token, text)` succeeds (false = raises),
the content download per message id (none = the request itself raises),
whether `s3.put_object` at a key succeeds (false = raises),
the hex disambiguator `uuid4().hex[:8]` produced for the n-th event,
and the `UPLOAD_BUCKET_NAME` environment variable. -/
structure Env where
  secret : SecretFetch
  parse : String → String → String → ParseResult
  replyOk : String → String → Bool
  download : String → Option DownloadResp
  s3putOk : String → Bool
  uuid : Nat → String
  bucketName : String

/-- The Lambda input event, restricted to the fields the handler reads:
`headers` (absent or null collapses to the empty map, app.py line 111) and
`body` (`event.get('body', '{}')`, app.py line 121; a missing key yields the
literal `"{}"`). -/
structure Request where
  headers : Option (List (String × String))
  body : Option String

/-- An HTTP-style Lambda proxy response with its `Content-Type` header. -/
structure HttpResponse where
  statusCode : Nat
  body : String
  contentType : String
deriving DecidableEq

/-- How an invocation ends: a returned proxy response, or an uncaught Python
exception (`raised`), which the platform surfaces to the gateway as an HTTP
500-equivalent error. -/
inductive HandlerOutcome where
  | response (r : HttpResponse)
  | raised (msg : String)
deriving DecidableEq

/-- Observable side effects of one invocation, in order. -/
inductive Act where
  | parseCalled (channelSecret body signature : String)
  | reply (token text : String)
  | httpGet (messageId : String)
  | s3put (bucket key : String)
deriving DecidableEq

/-- Sanitization of the base name (app.py line 71):
`''.join(c for c in original_name if c.isalnum() or c in '-_')`. -/
def sanitizeName (s : String) : String :=
  String.mk (s.data.filter (fun c => c.isAlphanum || c == '-' || c == '_'))

/-- Lowercase-hex digit predicate (`uuid4().hex` emits `0-9a-f`). -/
def isHexChar (c : Char) : Bool :=
  c.isDigit || ('a' ≤ c && c ≤ 'f')

/-- Splitting a character list on a separator, modelling Python's
`str.split(sep)` for a one-character separator. -/
def splitOnChar (sep : Char) : List Char → List (List Char)
  | [] => [[]]
  | c :: cs =>
    match splitOnChar sep cs with
    | [] => if c = sep then [[], []] else [[c]]
    | h :: t => if c = sep then [] :: h :: t else (c :: h) :: t

/-- Base name extraction (app.py lines 65-68): everything before the last dot
when the name contains one (`rsplit('.', 1)[0]`), else the whole name. -/
def baseName (s : String) : String :=
  if s.data.contains '.' then
    String.mk (((s.data.reverse.dropWhile (fun c => c ≠ '.')).drop 1).reverse)
  else s

/-- Extension inference from the declared content type (app.py lines 74-82):
default `bin`; when the type contains `image`, `audio` or `video`, the part
after the first `/` (Python's `split('/')[1]`, `none` models the `IndexError`
raised when there is no `/`); `pdf` when it contains `application/pdf`. -/
def fileExtension (ct : String) : Option String :=
  let parts := (splitOnChar '/' ct.data).map String.mk
  if strContains ct "image" then parts[1]?
  else if strContains ct "audio" then parts[1]?
  else if strContains ct "video" then parts[1]?
  else if strContains ct "application/pdf" then some "pdf"
  else some "bin"

/-- Storage-key derivation (app.py lines 58-85): the 8-hex disambiguator, an
underscore, the sanitized base of the original name (default `file`), a dot,
and the inferred extension (`f"{uuid.uuid4().hex[:8]}_{original_name}.{file_extension}"`). -/
def deriveFilename (uuid8 : String) (fileName : Option String) (ct : String) : Option String :=
  let original_filename := fileName.getD "file"
  let original_name := baseName original_filename
  let cleaned := sanitizeName original_name
  (fileExtension ct).map (fun ext => uuid8 ++ ("_" ++ cleaned ++ ("." ++ ext)))

/-- Models `handle_file_upload` (app.py lines 43-100). Every exception inside
(failed request, `IndexError` in extension inference, failed S3 put) is caught
and yields `none`; a non-200 download status also yields `none`. Returns the
`s3://bucket/key` path on success together with the actions attempted. -/
def handle_file_upload (env : Env) (uuid8 : String) (messageId : String)
    (fileName : Option String) : Option String × List Act :=
  match env.download messageId with
  | none => (none, [Act.httpGet messageId])
  | some resp =>
    if resp.status ≠ 200 then (none, [Act.httpGet messageId])
    else
      match deriveFilename uuid8 fileName resp.contentType with
      | none => (none, [Act.httpGet messageId])
      | some fn =>
        if env.s3putOk fn then
          (some ("s3://" ++ env.bucketName ++ ("/" ++ fn)),
           [Act.httpGet messageId, Act.s3put env.bucketName fn])
        else
          (none, [Act.httpGet messageId, Act.s3put env.bucketName fn])

/-- Python's `f"{x}"` for the optional file name: `None` renders as "None". -/
def fmtOptName (fn : Option String) : String :=
  fn.getD "None"

/-- Processing of one parsed event (the body of the `for` loop, app.py lines
153-189). Returns the actions attempted and whether an exception escaped
(only `reply_message` can raise out of the loop body; download/storage faults
are swallowed inside `handle_file_upload`). -/
def processEvent (env : Env) (idx : Nat) (e : Event) : List Act × Bool :=
  match e with
  | Event.nonMessage _ => ([], false)
  | Event.message rt m =>
    match m with
    | Message.otherMsg => ([], false)
    | Message.text t =>
        let txt := "You said: " ++ t
        ([Act.reply rt txt], !(env.replyOk rt txt))
    | Message.file id fn _sz =>
        let res := handle_file_upload env (env.uuid idx) id fn
        let txt :=
          match res.1 with
          | some _ => "File '" ++ fmtOptName fn ++ "' uploaded successfully!"
          | none => "Sorry, there was an error processing your file."
        (res.2 ++ [Act.reply rt txt], !(env.replyOk rt txt))

/-- The event loop (app.py lines 152-192): the single `try` wraps the whole
`for`, so the first event whose processing raises terminates the loop; the
exception is logged by the outer `except` and swallowed. -/
def runEvents (env : Env) : List Event → Nat → List Act
  | [], _ => []
  | e :: rest, i =>
      let r := processEvent env i e
      if r.2 then r.1 else r.1 ++ runEvents env rest (i + 1)

/-- Signature check and event dispatch once credentials are resolved
(app.py lines 110-199). `if not signature` treats both a missing header and an
empty-valued one as absent. -/
def handlerWithCreds (env : Env) (req : Request) (channelSecret : String) :
    HandlerOutcome × List Act :=
  let headers := req.headers.getD []
  let sig := (findSignature headers).getD ""
  let body := req.body.getD "{}"
  if sig = "" then
    (HandlerOutcome.response
      ⟨400, jsonMessage "Missing x-line-signature header", "application/json"⟩, [])
  else
    match env.parse channelSecret body sig with
    | ParseResult.invalidSignature =>
        (HandlerOutcome.response ⟨400, jsonMessage "Invalid signature", "application/json"⟩,
         [Act.parseCalled channelSecret body sig])
    | ParseResult.otherError m =>
        (HandlerOutcome.response ⟨500, jsonMessage ("Error: " ++ m), "application/json"⟩,
         [Act.parseCalled channelSecret body sig])
    | ParseResult.ok events =>
        (HandlerOutcome.response ⟨200, jsonMessage "OK", "application/json"⟩,
         Act.parseCalled channelSecret body sig :: runEvents env events 0)

/-- The webhook Lambda `handler` (app.py lines 103-199). `get_line_bot_api` is
called outside any `try` (line 108), so a credential failure propagates as an
uncaught exception. -/
def handler (env : Env) (req : Request) : HandlerOutcome × List Act :=
  match get_line_bot_api env.secret with
  | Except.error e => (HandlerOutcome.raised e, [])
  | Except.ok creds => handlerWithCreds env req creds.2

/-- The reply actions of a trace, as (token, text) pairs in order. -/
def replyActions (tr : List Act) : List (String × String) :=
  tr.filterMap (fun a =>
    match a with
    | Act.reply tk tx => some (tk, tx)
    | _ => none)

/-- True when the invocation ended in an uncaught exception, which the Lambda
platform reports to the gateway as an HTTP 500-equivalent outcome. -/
def isFatal (o : HandlerOutcome) : Bool :=
  match o with
  | HandlerOutcome.raised _ => true
  | HandlerOutcome.response _ => false

/-- An IAM policy statement as built by the authorizer. -/
structure PolicyStatement where
  action : String
  effect : String
  resource : String
deriving DecidableEq

/-- The policy document of an authorizer response. -/
structure PolicyDoc where
  version : String
  statements : List PolicyStatement
deriving DecidableEq

/-- The authorizer response: principal id, optional policy document, optional
context map. -/
structure AuthResponse where
  principalId : String
  policyDocument : Option PolicyDoc
  context : Option (List (String × String))
deriving DecidableEq

/-- Models `generate_policy` (authorizer.py lines 24-47). The policy document
is attached only when `effect` and `resource` are truthy (nonempty), and the
context only when the supplied map is truthy (present and nonempty). -/
def generate_policy (principalId effect resource : String)
    (ctx : Option (List (String × String))) : AuthResponse :=
  { principalId := principalId
    policyDocument :=
      if effect ≠ "" ∧ resource ≠ "" then
        some ⟨"2012-10-17", [⟨"execute-api:Invoke", effect, resource⟩]⟩
      else none
    context :=
      match ctx with
      | none => none
      | some l => if l.isEmpty then none else some l }

/-- The authorizer Lambda input, restricted to the fields read: the header map
(absent/null collapses to empty, authorizer.py lines 55-59) and `methodArn`. -/
structure AuthEvent where
  headers : Option (List (String × String))
  methodArn : String

/-- The authorizer `handler` (authorizer.py lines 49-86): Deny when no
(nonempty-valued) signature header is found, else Allow with the raw signature
value forwarded in the context. -/
def authHandler (ev : AuthEvent) : AuthResponse :=
  let headers := ev.headers.getD []
  let sig := (findSignature headers).getD ""
  if sig = "" then generate_policy "user" "Deny" ev.methodArn none
  else generate_policy "line-user" "Allow" ev.methodArn (some [("signature", sig)])

/-- The effect of the response's policy document, if any. -/
def policyEffect (r : AuthResponse) : Option String :=
  r.policyDocument.map (fun d => (d.statements.map PolicyStatement.effect).headD "")

/-- If no header key lowercases to `x-line-signature`, the scan finds nothing. -/
theorem findSignature_eq_none (hs : List (String × String))
    (h : ∀ kv ∈ hs, strLower kv.1 ≠ "x-line-signature") : findSignature hs = none := by
  simp only [findSignature, Option.map_eq_none', List.find?_eq_none]
  intro kv hkv hc
  rw [Bool.and_eq_true] at hc
  exact h kv hkv (by simpa using hc.2)

/-- C2: when the header map has no key case-insensitively equal to
`x-line-signature`, the handler (with resolved credentials) returns 400 with
the descriptive message, and its trace is empty — in particular the SDK parser
is never invoked on the body. -/
theorem c2_missing_header_rejected (env : Env) (req : Request)
    (fields : List (String × String)) (hsec : env.secret = SecretFetch.ok fields)
    (h : ∀ kv ∈ req.headers.getD [], strLower kv.1 ≠ "x-line-signature") :
    handler env req =
      (HandlerOutcome.response
        ⟨400, jsonMessage "Missing x-line-signature header", "application/json"⟩, []) := by
  have hsig : findSignature (req.headers.getD []) = none := findSignature_eq_none _ h
  simp [handler, hsec, get_line_bot_api, get_secret, Except.map, handlerWithCreds, hsig]

/-- C2 witness environment: credentials resolve to a fixed token/secret pair,
the parser accepts everything with no events, all side effects succeed. -/
def envA : Env :=
  { secret := SecretFetch.ok [("CHANNEL_ACCESS_TOKEN", "t"), ("CHANNEL_SECRET", "s")]
    parse := fun _ _ _ => ParseResult.ok []
    replyOk := fun _ _ => true
    download := fun _ => none
    s3putOk := fun _ => true
    uuid := fun _ => "00000000"
    bucketName := "b" }

/-- A request whose only header is unrelated to the signature. -/
def reqNoSig : Request := { headers := some [("content-type", "application/json")], body := some "{}" }

/-- Witness for C2 at a concrete request with no signature header. -/
theorem c2_missing_header_rejected_witness :
    handler envA reqNoSig =
      (HandlerOutcome.response
        ⟨400, jsonMessage "Missing x-line-signature header", "application/json"⟩, []) :=
  c2_missing_header_rejected envA reqNoSig
    [("CHANNEL_ACCESS_TOKEN", "t"), ("CHANNEL_SECRET", "s")] rfl (by decide)

/-- C3: whenever the parser succeeds (signature verification passes), the
handler returns 200 with body `{"message": "OK"}` and `Content-Type:
application/json`, for every environment — in particular regardless of how
replies, downloads and uploads fare. -/
theorem c3_success_response (env : Env) (req : Request)
    (fields : List (String × String)) (sig : String) (events : List Event)
    (hsec : env.secret = SecretFetch.ok fields)
    (hsig : findSignature (req.headers.getD []) = some sig) (hne : sig ≠ "")
    (hparse : env.parse ((fields.lookup "CHANNEL_SECRET").getD "")
        (req.body.getD "{}") sig = ParseResult.ok events) :
    (handler env req).1 =
      HandlerOutcome.response ⟨200, jsonMessage "OK", "application/json"⟩ := by
  simp [handler, hsec, get_line_bot_api, get_secret, Except.map, handlerWithCreds, hsig, hne,
    hparse]

/-- A request carrying the signature header with value `sig`. -/
def reqSig : Request := { headers := some [("x-line-signature", "sig")], body := some "{}" }

/-- Witness for C3: concrete request and environment where parsing succeeds. -/
theorem c3_success_response_witness :
    (handler envA reqSig).1 =
      HandlerOutcome.response ⟨200, jsonMessage "OK", "application/json"⟩ :=
  c3_success_response envA reqSig [("CHANNEL_ACCESS_TOKEN", "t"), ("CHANNEL_SECRET", "s")]
    "sig" [] rfl (by decide) (by decide) rfl

/-- C4: with a signature header present, an `InvalidSignatureError` from the
SDK parser yields a 400 response, and any other parser exception yields a 500
response. -/
theorem c4_invalid_signature_400_other_500 (env : Env) (req : Request)
    (fields : List (String × String)) (sig : String)
    (hsec : env.secret = SecretFetch.ok fields)
    (hsig : findSignature (req.headers.getD []) = some sig) (hne : sig ≠ "") :
    (env.parse ((fields.lookup "CHANNEL_SECRET").getD "") (req.body.getD "{}") sig =
        ParseResult.invalidSignature →
      (handler env req).1 =
        HandlerOutcome.response ⟨400, jsonMessage "Invalid signature", "application/json"⟩) ∧
    (∀ m, env.parse ((fields.lookup "CHANNEL_SECRET").getD "") (req.body.getD "{}") sig =
        ParseResult.otherError m →
      (handler env req).1 =
        HandlerOutcome.response ⟨500, jsonMessage ("Error: " ++ m), "application/json"⟩) := by
  constructor
  · intro hparse
    simp [handler, hsec, get_line_bot_api, get_secret, Except.map, handlerWithCreds, hsig, hne,
      hparse]
  · intro m hparse
    simp [handler, hsec, get_line_bot_api, get_secret, Except.map, handlerWithCreds, hsig, hne,
      hparse]

/-- Environment whose parser always reports an invalid signature. -/
def envInvalid : Env :=
  { envA with parse := fun _ _ _ => ParseResult.invalidSignature }

/-- Witness for C4: the concrete invalid-signature environment gets a 400. -/
theorem c4_invalid_signature_400_other_500_witness :
    (handler envInvalid reqSig).1 =
      HandlerOutcome.response ⟨400, jsonMessage "Invalid signature", "application/json"⟩ :=
  (c4_invalid_signature_400_other_500 envInvalid reqSig
    [("CHANNEL_ACCESS_TOKEN", "t"), ("CHANNEL_SECRET", "s")] "sig"
    rfl (by decide) (by decide)).1 rfl

/-- C7: processing a parsed text-message event with text `t` and reply token
`r` (the loop body the handler dispatches every event to) attempts exactly one
reply, addressed to `r`, with text `"You said: "` followed by `t`. -/
theorem c7_text_echo (env : Env) (idx : Nat) (r t : String) :
    replyActions (processEvent env idx (Event.message r (Message.text t))).1 =
      [(r, "You said: " ++ t)] := by
  simp [processEvent, replyActions]

/-- Environment whose secret fetch fails because the store is unreachable or
the identifier is absent. -/
def envBad : Env :=
  { envA with secret := SecretFetch.unavailable }

/-- C8: when credential resolution fails (store unreachable / id absent, or
payload not JSON), the invocation ends as an uncaught exception — the HTTP
500-equivalent outcome — with an empty trace: no signature check, no parser
call, no event processing happened. -/
theorem c8_credential_failure_fatal (env : Env) (req : Request)
    (h : env.secret = SecretFetch.unavailable ∨ env.secret = SecretFetch.notJson) :
    isFatal (handler env req).1 = true ∧ (handler env req).2 = [] := by
  rcases h with h | h <;>
    simp [handler, h, get_line_bot_api, get_secret, Except.map, isFatal]

/-- Witness for C8 at a concrete failing secret store. -/
theorem c8_credential_failure_fatal_witness :
    isFatal (handler envBad reqSig).1 = true ∧ (handler envBad reqSig).2 = [] :=
  c8_credential_failure_fatal envBad reqSig (Or.inl rfl)

/-- C9: a secret that is valid JSON but lacks `CHANNEL_ACCESS_TOKEN` or
`CHANNEL_SECRET` still resolves, substituting the empty string for each
missing field; with `CHANNEL_SECRET` absent the invocation does not fail and
signature verification is invoked with the empty channel secret. -/
theorem c9_missing_fields_default_empty (env : Env) (req : Request)
    (fields : List (String × String)) (sig : String)
    (hsec : env.secret = SecretFetch.ok fields)
    (hsig : findSignature (req.headers.getD []) = some sig) (hne : sig ≠ "") :
    (fields.lookup "CHANNEL_ACCESS_TOKEN" = none →
      get_line_bot_api env.secret =
        Except.ok ("", (fields.lookup "CHANNEL_SECRET").getD "")) ∧
    (fields.lookup "CHANNEL_SECRET" = none →
      isFatal (handler env req).1 = false ∧
      Act.parseCalled "" (req.body.getD "{}") sig ∈ (handler env req).2) := by
  constructor
  · intro htok
    simp [get_line_bot_api, get_secret, hsec, Except.map, htok]
  · intro hcs
    cases hp : env.parse "" (req.body.getD "{}") sig <;>
      simp [handler, hsec, get_line_bot_api, get_secret, Except.map, handlerWithCreds, hsig,
        hne, hcs, isFatal, hp]

/-- Environment whose secret decodes to the empty JSON object. -/
def envNoCs : Env :=
  { envA with secret := SecretFetch.ok [] }

/-- Witness for C9: empty secret object, concrete signed request. -/
theorem c9_missing_fields_default_empty_witness :
    isFatal (handler envNoCs reqSig).1 = false ∧
    Act.parseCalled "" "{}" "sig" ∈ (handler envNoCs reqSig).2 :=
  (c9_missing_fields_default_empty envNoCs reqSig [] "sig" rfl (by decide) (by decide)).2 rfl

/-- C10: a request without a `body` key gets the literal `"{}"` substituted:
the parser is invoked on `"{}"`, and the request is accepted (200 OK) exactly
when the parser accepts the signature over `"{}"`. -/
theorem c10_missing_body_defaults (env : Env) (req : Request)
    (fields : List (String × String)) (sig : String)
    (hsec : env.secret = SecretFetch.ok fields) (hbody : req.body = none)
    (hsig : findSignature (req.headers.getD []) = some sig) (hne : sig ≠ "") :
    Act.parseCalled ((fields.lookup "CHANNEL_SECRET").getD "") "{}" sig ∈
      (handler env req).2 ∧
    ((handler env req).1 =
        HandlerOutcome.response ⟨200, jsonMessage "OK", "application/json"⟩ ↔
      ∃ evs, env.parse ((fields.lookup "CHANNEL_SECRET").getD "") "{}" sig =
        ParseResult.ok evs) := by
  cases hp : env.parse ((fields.lookup "CHANNEL_SECRET").getD "") "{}" sig <;>
    simp [handler, hsec, get_line_bot_api, get_secret, Except.map, handlerWithCreds, hsig, hne,
      hbody, hp]

/-- A signed request whose Lambda event has no `body` key. -/
def reqNoBody : Request := { headers := some [("x-line-signature", "sig")], body := none }

/-- Witness for C10 at a concrete body-less request. -/
theorem c10_missing_body_defaults_witness :
    Act.parseCalled "s" "{}" "sig" ∈ (handler envA reqNoBody).2 ∧
    ((handler envA reqNoBody).1 =
        HandlerOutcome.response ⟨200, jsonMessage "OK", "application/json"⟩ ↔
      ∃ evs, envA.parse "s" "{}" "sig" = ParseResult.ok evs) :=
  c10_missing_body_defaults envA reqNoBody
    [("CHANNEL_ACCESS_TOKEN", "t"), ("CHANNEL_SECRET", "s")] "sig" rfl rfl
    (by decide) (by decide)

/-- C6: for every 8-hex-character disambiguator `p`, the storage key derived
for original name `"my file!.png"` with downloaded content type `"image/png"`
is exactly `p` followed by `"_myfile.png"` — the `<8-hex>_myfile.png` pattern:
the space and `!` are stripped by sanitization and the extension comes from
the content type. -/
theorem c6_derived_filename (p : String) (_hlen : p.length = 8)
    (_hhex : ∀ c ∈ p.data, isHexChar c = true) :
    deriveFilename p (some "my file!.png") "image/png" = some (p ++ "_myfile.png") := by
  have hext : fileExtension "image/png" = some "png" := by decide
  have hname : sanitizeName (baseName "my file!.png") = "myfile" := by decide
  simp only [deriveFilename, Option.getD_some, hext, hname, Option.map_some']
  rw [show ("_" ++ "myfile" ++ ("." ++ "png") : String) = "_myfile.png" from by decide]

/-- Witness for C6 at the concrete disambiguator `abcd1234`. -/
theorem c6_derived_filename_witness :
    deriveFilename "abcd1234" (some "my file!.png") "image/png" =
      some ("abcd1234" ++ "_myfile.png") :=
  c6_derived_filename "abcd1234" (by decide) (by decide)

/-- Two text events; replying to token `t1` raises, replying to `t2` would
succeed. -/
def c1Env : Env :=
  { secret := SecretFetch.ok [("CHANNEL_ACCESS_TOKEN", "tok"), ("CHANNEL_SECRET", "sec")]
    parse := fun _ _ _ =>
      ParseResult.ok [Event.message "t1" (Message.text "a"), Event.message "t2" (Message.text "b")]
    replyOk := fun tk _ => !(tk == "t1")
    download := fun _ => none
    s3putOk := fun _ => true
    uuid := fun _ => "00000000"
    bucketName := "bucket" }

/-- A signed request for the two-event environment. -/
def c1Req : Request := { headers := some [("x-line-signature", "s")], body := some "{}" }

/-- C1 evaluation: the `try` in app.py lines 152-192 wraps the whole event
loop, so when the reply for the first event raises, the second event is never
dispatched — its reply is absent from the trace — although the invocation
still returns 200 OK. This contradicts the stated per-event error
containment. -/
theorem c1_loop_abort_eval :
    (handler c1Env c1Req).1 =
      HandlerOutcome.response ⟨200, jsonMessage "OK", "application/json"⟩ ∧
    Act.reply "t1" "You said: a" ∈ (handler c1Env c1Req).2 ∧
    Act.reply "t2" "You said: b" ∉ (handler c1Env c1Req).2 := by
  decide

/-- An authorizer event whose signature header is present with empty value. -/
def evEmptySig : AuthEvent :=
  { headers := some [("x-line-signature", "")], methodArn := "arn:aws:execute-api:abc" }

/-- C5 counterexample: a request whose header map does contain a key
case-insensitively equal to `x-line-signature` (with empty value) is denied —
`if not signature` treats the empty value as absent — refuting "otherwise it
returns an Allow policy". -/
theorem c5_counterexample_empty_value_denied :
    (∃ kv ∈ evEmptySig.headers.getD [], strLower kv.1 = "x-line-signature") ∧
    policyEffect (authHandler evEmptySig) = some "Deny" ∧
    (authHandler evEmptySig).context = none := by
  decide

/-- C5 amended: the authorizer denies when the signature header is absent OR
its (first matching) value is the empty string, and allows with the raw
signature forwarded in context when a nonempty value is found, independent of
cryptographic validity. -/
theorem c5_deny_absent_allow_present (ev : AuthEvent) (harn : ev.methodArn ≠ "") :
    ((findSignature (ev.headers.getD []) = none ∨
        findSignature (ev.headers.getD []) = some "") →
      authHandler ev =
        { principalId := "user"
          policyDocument :=
            some ⟨"2012-10-17", [⟨"execute-api:Invoke", "Deny", ev.methodArn⟩]⟩
          context := none }) ∧
    (∀ s, findSignature (ev.headers.getD []) = some s → s ≠ "" →
      authHandler ev =
        { principalId := "line-user"
          policyDocument :=
            some ⟨"2012-10-17", [⟨"execute-api:Invoke", "Allow", ev.methodArn⟩]⟩
          context := some [("signature", s)] }) := by
  constructor
  · rintro (h | h) <;> simp [authHandler, h, generate_policy, harn]
  · intro s hs hne
    simp [authHandler, hs, hne, generate_policy, harn]

/-- An authorizer event with a mixed-case signature header and nonempty value. -/
def evSigPresent : AuthEvent :=
  { headers := some [("X-Line-Signature", "sig")], methodArn := "arn:aws:execute-api:abc" }

/-- Witness for the amended C5 at a concrete allowed request. -/
theorem c5_deny_absent_allow_present_witness :
    authHandler evSigPresent =
      { principalId := "line-user"
        policyDocument :=
          some ⟨"2012-10-17", [⟨"execute-api:Invoke", "Allow", "arn:aws:execute-api:abc"⟩]⟩
        context := some [("signature", "sig")] } :=
  (c5_deny_absent_allow_present evSigPresent (by decide)).2 "sig" (by decide) (by decide)
